import Mathlib

/-!
# Verification of the `kv` key-value FFI client (sdk/go/kv/kv.go)

Shallow embedding of the Go package `kv`, a client-side marshalling layer over a
host-supplied key-value store reached through a C FFI boundary.

Modelling decisions, each traceable to the Go source:

* A Go byte (`uint8`) is a `Nat`; a byte slice `[]byte` is a `List Nat`; the opaque
  host handle `C.key_value_store_t` (a `uint32`) is a `Nat`.
* `C.key_value_string_t` (pointer + length descriptor over a string) is `CStr`,
  carrying the pointed-to character data and the recorded length; likewise
  `C.key_value_list_u8_t` is `CBytes`.  The pointer itself has no shallow
  counterpart, so a descriptor is represented by the bytes it points at together
  with the `len` field the code stores next to the pointer.
* `C.key_value_error_t` (tag + payload union) is `ErrorUnion`; only the `IO`
  branch of `toErr` ever reads the payload, which is a string descriptor there,
  so the payload is carried as a `String`.
* Each host import (`key_value_open`, `key_value_get`, ...) is an unknown
  synchronous function, passed in as a parameter of the corresponding Lean
  function; its result is `Except ErrorUnion α` mirroring the
  `key_value_expected_*_error_t` out-parameter (`is_err` tag plus union value).
* Go methods on `*Store` may mutate the receiver, so every method returns the
  resulting `Store` explicitly; to reason about which host calls an operation
  issues, every method also returns the list of host calls it performed, in
  order (`List HostCall`).
* Go code that can panic at runtime returns an `Option`: `none` is the panic.
  The only panic site in the package is `toCBytes`, whose `&x[0]` is an index
  expression that faults on an empty slice.
-/

namespace KV

/-- `C.key_value_string_t`: a `{ptr, len}` string descriptor.  `data` stands for
the bytes `ptr` points at. -/
structure CStr where
  data : String
  len : Nat
deriving Repr, DecidableEq

/-- `C.key_value_list_u8_t`: a `{ptr, len}` byte-buffer descriptor. -/
structure CBytes where
  data : List Nat
  len : Nat
deriving Repr, DecidableEq

/-- `C.key_value_error_t`: an error tag plus a payload union.  Only the `IO`
branch reads the payload, as a string descriptor, so it is carried as the
string it decodes to. -/
structure ErrorUnion where
  tag : Nat
  payload : String
deriving Repr, DecidableEq

/-- The `Store` struct: `name string; active bool; ptr C.key_value_store_t`. -/
structure Store where
  name : String
  active : Bool
  ptr : Nat
deriving Repr, DecidableEq

/-- `NewStore(name)` returns `&Store{name: name}`; Go zero-values the remaining
fields (`active = false`, `ptr = 0`). -/
def NewStore (name : String) : Store :=
  Store.mk name false 0

/-- Error code constants, declared by `iota` in the Go source. -/
def ErrorStoreTableFull : Nat := 0

/-- `ErrorNoSuchStore = 1`. -/
def ErrorNoSuchStore : Nat := 1

/-- `ErrorAccessDenied = 2`. -/
def ErrorAccessDenied : Nat := 2

/-- `ErrorInvalidStore = 3`. -/
def ErrorInvalidStore : Nat := 3

/-- `ErrorNoSuchKey = 4`. -/
def ErrorNoSuchKey : Nat := 4

/-- `ErrorIO = 5`. -/
def ErrorIO : Nat := 5

/-- The `Error` struct returned from the value store: `{Code int; Message string}`. -/
structure Error where
  Code : Nat
  Message : String
deriving Repr, DecidableEq

/-- `newError(code, message)`. -/
def newError (code : Nat) (message : String) : Error :=
  Error.mk code message

/-- `toErr`: the switch over `err.tag`.  Tags 0-4 synthesize a static message;
tag 5 ( `ErrorIO` ) formats `"io error: %s"` around the decoded payload string;
the default arm formats `"unrecognized error: %v"` around the raw tag and keeps
that tag as the code. -/
def toErr (err : ErrorUnion) : Error :=
  if err.tag = ErrorStoreTableFull then newError ErrorStoreTableFull "store table full"
  else if err.tag = ErrorNoSuchStore then newError ErrorNoSuchStore "no such store"
  else if err.tag = ErrorAccessDenied then newError ErrorAccessDenied "access denied"
  else if err.tag = ErrorInvalidStore then newError ErrorInvalidStore "invalid store"
  else if err.tag = ErrorNoSuchKey then newError ErrorNoSuchKey "no such key"
  else if err.tag = ErrorIO then newError ErrorIO ("io error: " ++ err.payload)
  else newError err.tag ("unrecognized error: " ++ toString err.tag)

/-- `toCStr(x)`: builds `{ptr: C.CString(x), len: C.size_t(len(x))}`.  Total:
`C.CString` accepts the empty string. -/
def toCStr (x : String) : CStr :=
  CStr.mk x x.length

/-- `toCBytes(x)`: builds `{ptr: &x[0], len: C.size_t(len(x))}`.  The index
expression `x[0]` is evaluated unconditionally to take its address, so on an
empty slice Go raises `index out of range [0] with length 0`; that runtime
panic is modelled as `none`.  `x.head?` is exactly the guarded read of `x[0]`. -/
def toCBytes (x : List Nat) : Option CBytes :=
  match x.head? with
  | none => none
  | some _ => some (CBytes.mk x x.length)

/-- `C.GoBytes(ptr, len)`: copies `len` bytes out of the buffer behind the
descriptor into a freshly owned slice. -/
def goBytes (l : CBytes) : List Nat :=
  l.data.take l.len

/-- One host call crossing the FFI boundary, with the arguments the Go code
passes: the current handle (`C.uint32_t(s.ptr)`) and the encoded descriptors. -/
inductive HostCall where
  | openCall (name : CStr)
  | closeCall (handle : Nat)
  | getCall (handle : Nat) (key : CStr)
  | setCall (handle : Nat) (key : CStr) (value : CBytes)
  | deleteCall (handle : Nat) (key : CStr)
  | existsCall (handle : Nat) (key : CStr)
deriving Repr, DecidableEq

/-- The host's `key_value_open` import: name descriptor in, handle or error out. -/
def HostOpen : Type := CStr → Except ErrorUnion Nat

/-- The host's `key_value_get` import. -/
def HostGet : Type := Nat → CStr → Except ErrorUnion CBytes

/-- The host's `key_value_set` import. -/
def HostSet : Type := Nat → CStr → CBytes → Except ErrorUnion Unit

/-- The host's `key_value_delete` import. -/
def HostDelete : Type := Nat → CStr → Except ErrorUnion Unit

/-- The host's `key_value_exists` import. -/
def HostExists : Type := Nat → CStr → Except ErrorUnion Bool

/-- The private method `(s *Store) open()`: returns `nil` at once if `s.active`;
otherwise encodes `s.name`, issues `key_value_open`, and on success stores the
returned handle in `s.ptr` and sets `s.active = true`; on failure returns
`toErr` of the union and leaves `s` untouched.  Result: the returned `error`,
the receiver afterwards, and the host calls issued. -/
def Store.openStore (host : HostOpen) (s : Store) : Option Error × Store × List HostCall :=
  if s.active then (none, s, [])
  else
    let cname := toCStr s.name
    match host cname with
    | .error e => (some (toErr e), s, [HostCall.openCall cname])
    | .ok h => (none, Store.mk s.name true h, [HostCall.openCall cname])

/-- `(s *Store) Open()`: `return s.open()`. -/
def Store.Open (host : HostOpen) (s : Store) : Option Error × Store × List HostCall :=
  Store.openStore host s

/-- `(s *Store) Close()`: issues `key_value_close` only when `s.active`, then
sets `s.active = false` unconditionally.  No error is returned (the Go
signature has no result). -/
def Store.Close (s : Store) : Store × List HostCall :=
  if s.active then (Store.mk s.name false s.ptr, [HostCall.closeCall s.ptr])
  else (Store.mk s.name false s.ptr, [])

/-- `(s *Store) Get(key)`: encodes the key, issues `key_value_get` with the
current `s.ptr`, and returns either the copied-out bytes or `toErr` of the
union (with a `nil` slice, here `none`).  The receiver is never assigned to. -/
def Store.Get (host : HostGet) (s : Store) (key : String) :
    (Option (List Nat) × Option Error) × Store × List HostCall :=
  let ckey := toCStr key
  match host s.ptr ckey with
  | .error e => ((none, some (toErr e)), s, [HostCall.getCall s.ptr ckey])
  | .ok list => ((some (goBytes list), none), s, [HostCall.getCall s.ptr ckey])

/-- `(s *Store) Delete(key)`: encodes the key, issues `key_value_delete`, and
returns `nil` or `toErr` of the union. -/
def Store.Delete (host : HostDelete) (s : Store) (key : String) :
    Option Error × Store × List HostCall :=
  let ckey := toCStr key
  match host s.ptr ckey with
  | .error e => (some (toErr e), s, [HostCall.deleteCall s.ptr ckey])
  | .ok _ => (none, s, [HostCall.deleteCall s.ptr ckey])

/-- `(s *Store) Set(key, value)`: encodes key and value, issues `key_value_set`,
and returns `nil` or `toErr` of the union.  `toCBytes(value)` runs before the
host call, so an empty `value` panics (outer `none`) with no host call made. -/
def Store.Set (host : HostSet) (s : Store) (key : String) (value : List Nat) :
    Option (Option Error × Store × List HostCall) :=
  let ckey := toCStr key
  match toCBytes value with
  | none => none
  | some cbytes =>
    match host s.ptr ckey cbytes with
    | .error e => some (some (toErr e), s, [HostCall.setCall s.ptr ckey cbytes])
    | .ok _ => some (none, s, [HostCall.setCall s.ptr ckey cbytes])

/-- `(s *Store) Exists(key)`: encodes the key, issues `key_value_exists`, and
returns `(false, toErr(...))` on error or the decoded boolean with `nil` error. -/
def Store.Exists (host : HostExists) (s : Store) (key : String) :
    (Bool × Option Error) × Store × List HostCall :=
  let ckey := toCStr key
  match host s.ptr ckey with
  | .error e => ((false, some (toErr e)), s, [HostCall.existsCall s.ptr ckey])
  | .ok b => ((b, none), s, [HostCall.existsCall s.ptr ckey])

/-! ## Concrete hosts used as witnesses -/

/-- A host whose `key_value_get` always answers `invalid store` (tag 3), the
reply a correct host gives for a never-opened handle. -/
def hostGetInvalid : HostGet := fun _ _ => Except.error (ErrorUnion.mk 3 "")

/-- A host whose `key_value_open` always succeeds with handle 7. -/
def hostOpenOk : HostOpen := fun _ => Except.ok 7

/-- A host whose `key_value_open` always fails with `access denied` (tag 2). -/
def hostOpenDenied : HostOpen := fun _ => Except.error (ErrorUnion.mk 2 "")

/-- A host whose `key_value_set` always succeeds. -/
def hostSetOk : HostSet := fun _ _ _ => Except.ok ()

/-- A host whose `key_value_delete` always succeeds. -/
def hostDeleteOk : HostDelete := fun _ _ => Except.ok ()

/-- A host whose `key_value_exists` always fails with an `io` error (tag 5). -/
def hostExistsIOErr : HostExists := fun _ _ => Except.error (ErrorUnion.mk 5 "boom")

/-- A host whose `key_value_exists` always succeeds with `true`. -/
def hostExistsTrue : HostExists := fun _ _ => Except.ok true

/-! ## A correct host store, for the round-trip property -/

/-- The host-side content of one store: a partial map from keys to byte values. -/
def KVMap : Type := String → Option (List Nat)

/-- The host store after a successful `set k v`. -/
def mapSet (m : KVMap) (k : String) (v : List Nat) : KVMap :=
  fun q => if q = k then some v else m q

/-- A correct host `get` over content `m`: reads the key out of the string
descriptor, returns a buffer descriptor over the stored value, or a
`no such key` (tag 4) error when the key is absent. -/
def hostGetOf (m : KVMap) : HostGet := fun _ ck =>
  match m ck.data with
  | some v => Except.ok (CBytes.mk v v.length)
  | none => Except.error (ErrorUnion.mk 4 "")

/-! ## Theorems for the claims -/

/-- Claim C2, counterexample.  The claim states that encoding an empty byte
sequence never dereferences a non-existent first element and never faults, but
`toCBytes` evaluates `&x[0]` unconditionally: on the empty slice this is an
out-of-range index and the encoder faults (modelled by `none`). -/
theorem toCBytes_nil_faults : toCBytes [] = none := rfl

/-- Claim C2 as amended: encoding is total and safe exactly on nonempty byte
sequences, producing the descriptor `{ptr: &x[0], len: len(x)}`; there is no
defensive special case for length 0, where the encoder faults. -/
theorem toCBytes_nonempty (v : List Nat) (h : v ≠ []) :
    toCBytes v = some (CBytes.mk v v.length) := by
  cases v with
  | nil => exact absurd rfl h
  | cons a t => rfl

/-- Witness for `toCBytes_nonempty` at the one-byte buffer `[1]`. -/
theorem toCBytes_nonempty_witness : toCBytes [1] = some (CBytes.mk [1] 1) :=
  toCBytes_nonempty [1] (by decide)

/-- Claim C4: `toErr` maps each known tag to its canonical typed `Error`.
Tags 0-4 get their static messages regardless of the payload (the payload
argument `p` is arbitrary and unread), and tag 5 ( `ErrorIO` ) gets
`"io error: "` followed by the host-supplied payload decoded verbatim. -/
theorem toErr_known_tags (p m : String) :
    toErr (ErrorUnion.mk 0 p) = newError ErrorStoreTableFull "store table full" ∧
    toErr (ErrorUnion.mk 1 p) = newError ErrorNoSuchStore "no such store" ∧
    toErr (ErrorUnion.mk 2 p) = newError ErrorAccessDenied "access denied" ∧
    toErr (ErrorUnion.mk 3 p) = newError ErrorInvalidStore "invalid store" ∧
    toErr (ErrorUnion.mk 4 p) = newError ErrorNoSuchKey "no such key" ∧
    toErr (ErrorUnion.mk 5 m) = newError ErrorIO ("io error: " ++ m) :=
  ⟨rfl, rfl, rfl, rfl, rfl, rfl⟩

/-- Witness for `toErr_known_tags` at payload `"disk full"`: the two decoding
examples the design gives for tags 4 and 5. -/
theorem toErr_known_tags_witness :
    toErr (ErrorUnion.mk 4 "disk full") = newError 4 "no such key" ∧
    toErr (ErrorUnion.mk 5 "disk full") = newError 5 ("io error: " ++ "disk full") :=
  ⟨(toErr_known_tags "disk full" "disk full").2.2.2.2.1,
   (toErr_known_tags "disk full" "disk full").2.2.2.2.2⟩

/-- Claim C5: for every tag outside the six defined kinds, `toErr` still
produces a typed `Error` whose code is the raw numeric tag and whose message
states the tag is unrecognized; being a total Lean function over all of `Nat`,
the decoder never panics or aborts. -/
theorem toErr_unknown_tag (t : Nat) (p : String) (h : 6 ≤ t) :
    toErr (ErrorUnion.mk t p) = newError t ("unrecognized error: " ++ toString t) := by
  simp only [toErr, ErrorStoreTableFull, ErrorNoSuchStore, ErrorAccessDenied, ErrorInvalidStore,
    ErrorNoSuchKey, ErrorIO ]
  rw [if_neg (show t ≠ 0 by omega), if_neg (show t ≠ 1 by omega),
    if_neg (show t ≠ 2 by omega), if_neg (show t ≠ 3 by omega),
    if_neg (show t ≠ 4 by omega), if_neg (show t ≠ 5 by omega)]

/-- Witness for `toErr_unknown_tag` at the out-of-range tag 99. -/
theorem toErr_unknown_tag_witness :
    toErr (ErrorUnion.mk 99 "junk") = newError 99 ("unrecognized error: " ++ toString 99) :=
  toErr_unknown_tag 99 "junk" (by omega)

/-- Claim C1, counterexample.  The claim states that a data operation on an
inactive `Store` performs the open transition before issuing its host call.
On the freshly constructed (inactive) store `NewStore "cache"`, `Get` issues
exactly one host call — `key_value_get` with the zero handle — with no
`key_value_open` call, and the store is still inactive afterwards; the typed
error is just the decoded host reply. -/
theorem get_on_inactive_store_counterexample :
    (Store.Get hostGetInvalid (NewStore "cache") "missing").2.2 =
      [HostCall.getCall 0 (toCStr "missing")] ∧
    ((Store.Get hostGetInvalid (NewStore "cache") "missing").2.1).active = false ∧
    (Store.Get hostGetInvalid (NewStore "cache") "missing").1 =
      (none, some (newError 3 "invalid store")) :=
  ⟨rfl, rfl, rfl⟩

/-- Claim C1 as amended: the public data operations do **not** auto-open.
Called on an inactive `Store`, each of `Get`, `Set`, `Delete`, `Exists` issues
exactly its own host call, built from the current (never-opened) handle — the
trace contains no open call — and the store remains inactive afterwards.
Opening is done only explicitly through `Open`. -/
theorem data_ops_do_not_auto_open (hg : HostGet) (hs : HostSet) (hd : HostDelete)
    (he : HostExists) (s : Store) (key : String) (value : List Nat)
    (h : s.active = false) :
    (Store.Get hg s key).2.2 = [HostCall.getCall s.ptr (toCStr key)] ∧
    (∀ r, Store.Set hs s key value = some r →
      r.2.2 = [HostCall.setCall s.ptr (toCStr key) (CBytes.mk value value.length)]) ∧
    (Store.Delete hd s key).2.2 = [HostCall.deleteCall s.ptr (toCStr key)] ∧
    (Store.Exists he s key).2.2 = [HostCall.existsCall s.ptr (toCStr key)] ∧
    ((Store.Get hg s key).2.1).active = false ∧
    ((Store.Delete hd s key).2.1).active = false ∧
    ((Store.Exists he s key).2.1).active = false := by
  refine ⟨?_, ?_, ?_, ?_, ?_, ?_, ?_⟩
  · cases hh : hg s.ptr (toCStr key) <;> simp [Store.Get, hh]
  · intro r hr
    cases value with
    | nil => simp [Store.Set, toCBytes] at hr
    | cons a t =>
      simp only [Store.Set, toCBytes, List.head?_cons, List.length_cons] at hr
      cases hh : hs s.ptr (toCStr key) (CBytes.mk (a :: t) (t.length + 1)) with
      | error u =>
        rw [hh] at hr
        rw [Option.some_inj] at hr
        rw [← hr]
        simp
      | ok u =>
        rw [hh] at hr
        rw [Option.some_inj] at hr
        rw [← hr]
        simp
  · cases hh : hd s.ptr (toCStr key) <;> simp [Store.Delete, hh]
  · cases hh : he s.ptr (toCStr key) <;> simp [Store.Exists, hh]
  · cases hh : hg s.ptr (toCStr key) <;> simp [Store.Get, hh, h]
  · cases hh : hd s.ptr (toCStr key) <;> simp [Store.Delete, hh, h]
  · cases hh : he s.ptr (toCStr key) <;> simp [Store.Exists, hh, h]

/-- Witness for `data_ops_do_not_auto_open` on the inactive store
`NewStore "cache"`. -/
theorem data_ops_do_not_auto_open_witness :
    (Store.Get hostGetInvalid (NewStore "cache") "absent").2.2 =
      [HostCall.getCall 0 (toCStr "absent")] ∧
    ((Store.Get hostGetInvalid (NewStore "cache") "absent").2.1).active = false :=
  ⟨(data_ops_do_not_auto_open hostGetInvalid hostSetOk hostDeleteOk hostExistsTrue
      (NewStore "cache") "absent" [1] rfl).1,
   (data_ops_do_not_auto_open hostGetInvalid hostSetOk hostDeleteOk hostExistsTrue
      (NewStore "cache") "absent" [1] rfl).2.2.2.2.1⟩

/-- Claim C3: the round trip with an empty value fails.  `Set` evaluates
`toCBytes(value)` before issuing the host call; with `value = []` the encoder
takes `&value[0]`, which panics at runtime (modelled by `none`), so
`Set(k, [])` can never succeed and no `Set`-then-`Get` round trip exists for
the empty byte sequence, on any store over any host. -/
theorem set_empty_value_panics :
    Store.Set hostSetOk (Store.mk "cache" true 7) "a" [] = none := rfl

/-- Supporting fact for the round-trip analysis: for every **nonempty** value
the round trip does hold over a correct host store.  `Set k v` succeeds and
issues the set host call, and `Get k` against host content updated with
`k ↦ v` returns exactly `v` with no error. -/
theorem set_get_roundtrip_nonempty (m : KVMap) (s : Store) (k : String) (v : List Nat)
    (hv : v ≠ []) :
    Store.Set hostSetOk s k v =
      some (none, s, [HostCall.setCall s.ptr (toCStr k) (CBytes.mk v v.length)]) ∧
    (Store.Get (hostGetOf (mapSet m k v)) s k).1 = (some v, none) := by
  constructor
  · cases v with
    | nil => exact absurd rfl hv
    | cons a t => rfl
  · simp [Store.Get, hostGetOf, mapSet, toCStr, goBytes]

/-- Witness for `set_get_roundtrip_nonempty` at key `"a"` and value `[1, 2]`
over the initially empty host store. -/
theorem set_get_roundtrip_nonempty_witness :
    Store.Set hostSetOk (Store.mk "cache" true 7) "a" [1, 2] =
      some (none, Store.mk "cache" true 7,
        [HostCall.setCall 7 (toCStr "a") (CBytes.mk [1, 2] 2)]) ∧
    (Store.Get (hostGetOf (mapSet (fun _ => none) "a" [1, 2]))
        (Store.mk "cache" true 7) "a").1 = (some [1, 2], none) :=
  set_get_roundtrip_nonempty (fun _ => none) (Store.mk "cache" true 7) "a" [1, 2] (by decide)

/-- Claim C6: once `Open` has succeeded, an immediate second `Open` succeeds,
issues no host call at all, and returns the store unchanged (same name, active
flag and handle). -/
theorem open_idempotent (host : HostOpen) (s s2 : Store) (tr : List HostCall)
    (h : Store.Open host s = (none, s2, tr)) :
    Store.Open host s2 = (none, s2, []) := by
  have hact : s2.active = true := by
    unfold Store.Open Store.openStore at h
    cases hs : s.active with
    | true =>
      simp [hs] at h
      rw [← h.1, hs]
    | false =>
      cases hh : host (toCStr s.name) with
      | error u => simp [hs, hh] at h
      | ok v =>
        simp [hs, hh] at h
        rw [← h.1]
  unfold Store.Open Store.openStore
  rw [hact]
  simp

/-- Witness for `open_idempotent`: after `Open` succeeds on `NewStore "db"`
against a host handing out handle 7, the second `Open` is a silent no-op. -/
theorem open_idempotent_witness :
    Store.Open hostOpenOk (Store.mk "db" true 7) = (none, Store.mk "db" true 7, []) :=
  open_idempotent hostOpenOk (NewStore "db") (Store.mk "db" true 7)
    [HostCall.openCall (toCStr "db")] rfl

/-- Claim C7: `Open` on a closed store issues the host open call; if the host
replies with an error the store is returned untouched (still inactive, handle
not overwritten) together with the typed decoded `Error`; only on host success
is the returned handle recorded and the active flag set. -/
theorem open_on_closed_store (host : HostOpen) (s : Store) (h1 : s.active = false) :
    (∀ u, host (toCStr s.name) = Except.error u →
      Store.Open host s = (some (toErr u), s, [HostCall.openCall (toCStr s.name)])) ∧
    (∀ v, host (toCStr s.name) = Except.ok v →
      Store.Open host s = (none, Store.mk s.name true v, [HostCall.openCall (toCStr s.name)])) := by
  constructor <;> intro x hx <;> simp [Store.Open, Store.openStore, h1, hx]

/-- Witness for `open_on_closed_store`: a host denying access leaves
`NewStore "db"` closed and surfaces the `access denied` error. -/
theorem open_on_closed_store_witness :
    Store.Open hostOpenDenied (NewStore "db") =
      (some (newError 2 "access denied"), NewStore "db", [HostCall.openCall (toCStr "db")]) :=
  (open_on_closed_store hostOpenDenied (NewStore "db") rfl).1 (ErrorUnion.mk 2 "") rfl

/-- Claim C8: `Close` returns no error channel at all (its Go signature has no
result), issues the host close call exactly when the store is active, clears
the active flag unconditionally while keeping name and handle, and a second
`Close` right after is a no-op making no host call. -/
theorem close_is_best_effort (s : Store) :
    (Store.Close s).1 = Store.mk s.name false s.ptr ∧
    (s.active = true → (Store.Close s).2 = [HostCall.closeCall s.ptr]) ∧
    (s.active = false → Store.Close s = (s, [])) ∧
    Store.Close (Store.Close s).1 = ((Store.Close s).1, []) := by
  obtain ⟨n, a, p⟩ := s
  cases a <;> simp [Store.Close]

/-- Witness for `close_is_best_effort` on an active store with handle 7 and on
its closed successor. -/
theorem close_is_best_effort_witness :
    (Store.Close (Store.mk "db" true 7)).2 = [HostCall.closeCall 7] ∧
    Store.Close (Store.mk "db" false 7) = (Store.mk "db" false 7, []) :=
  ⟨(close_is_best_effort (Store.mk "db" true 7)).2.1 rfl,
   (close_is_best_effort (Store.mk "db" false 7)).2.2.1 rfl⟩

/-- Claim C9: whenever `Exists` returns an error, the boolean returned next to
it is exactly `false`: the error arm returns the literal pair
`(false, toErr(...))`. -/
theorem exists_error_returns_false (host : HostExists) (s : Store) (key : String)
    (e : Error) (h : (Store.Exists host s key).1.2 = some e) :
    (Store.Exists host s key).1.1 = false := by
  cases hh : host s.ptr (toCStr key) with
  | error u => simp [Store.Exists, hh]
  | ok b => simp [Store.Exists, hh] at h

/-- Witness for `exists_error_returns_false` against a host failing with an
`io` error. -/
theorem exists_error_returns_false_witness :
    (Store.Exists hostExistsIOErr (NewStore "db") "k").1.1 = false :=
  exists_error_returns_false hostExistsIOErr (NewStore "db") "k"
    (newError 5 ("io error: " ++ "boom")) rfl

/-- Claim C10: the data operations never modify the receiver.  `Get`, `Delete`
and `Exists` return the store exactly as given, on success and on failure
alike; `Set` does too whenever it returns at all (its one panic site aside,
captured by the outer `Option`). -/
theorem data_ops_frame (hg : HostGet) (hs : HostSet) (hd : HostDelete) (he : HostExists)
    (s : Store) (key : String) (value : List Nat) :
    (Store.Get hg s key).2.1 = s ∧
    (∀ r, Store.Set hs s key value = some r → r.2.1 = s) ∧
    (Store.Delete hd s key).2.1 = s ∧
    (Store.Exists he s key).2.1 = s := by
  refine ⟨?_, ?_, ?_, ?_⟩
  · cases hh : hg s.ptr (toCStr key) <;> simp [Store.Get, hh]
  · intro r hr
    cases value with
    | nil => simp [Store.Set, toCBytes] at hr
    | cons a t =>
      simp only [Store.Set, toCBytes, List.head?_cons, List.length_cons] at hr
      cases hh : hs s.ptr (toCStr key) (CBytes.mk (a :: t) (t.length + 1)) with
      | error u =>
        rw [hh] at hr
        rw [Option.some_inj] at hr
        rw [← hr]
      | ok u =>
        rw [hh] at hr
        rw [Option.some_inj] at hr
        rw [← hr]
  · cases hh : hd s.ptr (toCStr key) <;> simp [Store.Delete, hh]
  · cases hh : he s.ptr (toCStr key) <;> simp [Store.Exists, hh]

/-- Witness for `data_ops_frame` on `NewStore "db"`, key `"k"`, value `[1]`,
with the `Set` clause instantiated at its concrete successful result. -/
theorem data_ops_frame_witness :
    (Store.Get hostGetInvalid (NewStore "db") "k").2.1 = NewStore "db" ∧
    ((none : Option Error), NewStore "db",
      [HostCall.setCall 0 (toCStr "k") (CBytes.mk [1] 1)]).2.1 = NewStore "db" ∧
    (Store.Delete hostDeleteOk (NewStore "db") "k").2.1 = NewStore "db" ∧
    (Store.Exists hostExistsTrue (NewStore "db") "k").2.1 = NewStore "db" :=
  ⟨(data_ops_frame hostGetInvalid hostSetOk hostDeleteOk hostExistsTrue
      (NewStore "db") "k" [1]).1,
   (data_ops_frame hostGetInvalid hostSetOk hostDeleteOk hostExistsTrue
      (NewStore "db") "k" [1]).2.1
     ((none : Option Error), NewStore "db",
       [HostCall.setCall 0 (toCStr "k") (CBytes.mk [1] 1)]) rfl,
   (data_ops_frame hostGetInvalid hostSetOk hostDeleteOk hostExistsTrue
      (NewStore "db") "k" [1]).2.2.1,
   (data_ops_frame hostGetInvalid hostSetOk hostDeleteOk hostExistsTrue
      (NewStore "db") "k" [1]).2.2.2⟩

end KV
